import Mathlib

/-
Shallow embedding of src/wasm_storage_core.rs: an in-memory observable
key-value container (WasmStorage) with a dispatch pipeline of middleware,
an action reducer, and change listeners.

Modelling conventions:
- JsValue is modelled by an inductive covering the cases the program
  distinguishes: the null and undefined sentinels, numbers, strings,
  booleans, and plain objects (ordered association lists of fields).
- f64 timestamps from js_sys Date now are modelled as Int: the program
  only samples and stores them, it never does float arithmetic on them.
  The clock is a parameter mapping the index of a Date-now call to the
  value it returns.
- Host callbacks (listeners, middleware) are opaque Lean functions
  returning Except, mirroring the Result of js_sys Function call1: an
  error value models a raised JS exception.
- The HashMap String JsValue state is modelled as an association list
  with unique keys; insert replaces the entry in place, remove drops the
  entry for the key.
- Effects are threaded explicitly: a Trace records how many Date-now
  samples were taken and which change events were delivered to which
  listener positions, in call order. Mutex lock acquisition is modelled
  as always succeeding (no poisoning); the lock-ordering facts needed by
  one claim are modelled separately as an explicit event trace.
-/

namespace WasmStorage

/-- Model of wasm_bindgen JsValue restricted to the shapes the program
distinguishes: null, undefined, numbers, strings, booleans and plain
objects given as ordered field lists. -/
inductive JsValue : Type where
  | null : JsValue
  | undefined : JsValue
  | num : Int → JsValue
  | str : String → JsValue
  | bool : Bool → JsValue
  | obj : List (String × JsValue) → JsValue

/-- Matches JsValue is_undefined. -/
def JsValue.is_undefined : JsValue → Bool
  | .undefined => true
  | _ => false

/-- Matches JsValue is_null. -/
def JsValue.is_null : JsValue → Bool
  | .null => true
  | _ => false

/-- Matches JsValue as_string: Some only for JS strings. -/
def JsValue.as_string : JsValue → Option String
  | .str s => some s
  | _ => none

/-- First value bound to a key in a field list (JS property lookup and
HashMap get are both modelled through this; key lists are unique). -/
def lookupField : List (String × JsValue) → String → Option JsValue
  | [], _ => none
  | (k2, v) :: rest, k => if k2 = k then some v else lookupField rest k

/-- js_sys Reflect get: on an object it returns the named property, the
undefined sentinel when the property is absent; on a non-object target it
raises a TypeError, surfaced as an Err by the binding. -/
def reflect_get (target : JsValue) (key : String) : Except JsValue JsValue :=
  match target with
  | .obj fields => .ok ((lookupField fields key).getD .undefined)
  | _ => .error (.str "TypeError")

/-- A middleware callback: js_sys Function call1 on the action object,
returning Ok of the returned JsValue or Err of a raised exception. -/
abbrev Middleware : Type := JsValue → Except JsValue JsValue

/-- A listener callback: js_sys Function call1 on the change event; the
returned value is ignored by the program, only raised exceptions matter. -/
abbrev Listener : Type := JsValue → Except JsValue Unit

/-- The host clock: the value Date now returns at its i-th call. -/
abbrev Clock : Type := Nat → Int

/-- The action object built for each middleware (apply_middleware lines
153-156): fields type, payload, timestamp. -/
def actionObj (action_type : String) (payload : JsValue) (timestamp : Int) : JsValue :=
  .obj [("type", .str action_type), ("payload", payload), ("timestamp", .num timestamp)]

/-- The change event object built in notify_listeners (lines 136-139):
fields key, value, timestamp. -/
def changeEvent (key : String) (value : JsValue) (timestamp : Int) : JsValue :=
  .obj [("key", .str key), ("value", value), ("timestamp", .num timestamp)]

/-- HashMap insert on the association-list model: replaces the entry for
the key in place, otherwise appends. -/
def mapInsert : List (String × JsValue) → String → JsValue → List (String × JsValue)
  | [], k, v => [(k, v)]
  | (k2, v2) :: rest, k, v =>
      if k2 = k then (k, v) :: rest else (k2, v2) :: mapInsert rest k v

/-- HashMap remove on the association-list model: drops the entry bound
to the key (on unique-key lists this is exactly removing the one entry). -/
def mapRemove (m : List (String × JsValue)) (k : String) : List (String × JsValue) :=
  m.filter fun e => !(e.1 = k : Bool)

/-- The WasmStorage container state: the three Mutex-protected fields. -/
structure Store : Type where
  state : List (String × JsValue)
  listeners : List Listener
  middleware : List Middleware

/-- Observable effects of a run: how many Date-now samples were taken so
far, and the change events delivered so far as pairs of listener position
and event object, in call order. -/
structure Trace : Type where
  sample : Nat
  deliveries : List (Nat × JsValue)

/-- The empty trace at the start of a run. -/
def trace0 : Trace := { sample := 0, deliveries := [] }

/-- get_state (lines 56-59): current value, or the null sentinel when the
key is absent. The lock always succeeds in this model. -/
def get_state (state : List (String × JsValue)) (key : String) : JsValue :=
  (lookupField state key).getD .null

/-- get_all_state (lines 62-71): a snapshot of all pairs. -/
def get_all_state (s : Store) : List (String × JsValue) :=
  s.state

/-- The delivery loop of notify_listeners (lines 141-143): every listener
is called with the event and the Result of the call is discarded, so each
position receives the event exactly once whatever the callback does. -/
def callListeners (ev : JsValue) : List Listener → Nat → List (Nat × JsValue)
  | [], _ => []
  | l :: rest, i =>
      let _ := l ev
      (i, ev) :: callListeners ev rest (i + 1)

/-- notify_listeners (lines 134-146): builds the change event with a fresh
Date-now sample and delivers it to every listener in registration order,
swallowing callback errors. -/
def notify_listeners (clock : Clock) (s : Store) (tr : Trace) (key : String)
    (value : JsValue) : Trace × Except JsValue Unit :=
  let ts := clock tr.sample
  let ev := changeEvent key value ts
  let ds := callListeners ev s.listeners 0
  ({ sample := tr.sample + 1, deliveries := tr.deliveries ++ ds }, .ok ())

/-- set_state (lines 45-53): insert, then notify listeners with the new
value; the question-mark on notify_listeners is kept structurally. -/
def set_state (clock : Clock) (s : Store) (tr : Trace) (key : String)
    (value : JsValue) : Store × Trace × Except JsValue Unit :=
  let s2 : Store := { s with state := mapInsert s.state key value }
  match notify_listeners clock s2 tr key value with
  | (tr2, .error e) => (s2, tr2, .error e)
  | (tr2, .ok _) => (s2, tr2, .ok ())

/-- remove_state (lines 126-131): remove the key, then notify listeners
with the null sentinel, whether or not the key was present. -/
def remove_state (clock : Clock) (s : Store) (tr : Trace) (key : String) :
    Store × Trace × Except JsValue Unit :=
  let s2 : Store := { s with state := mapRemove s.state key }
  match notify_listeners clock s2 tr key .null with
  | (tr2, .error e) => (s2, tr2, .error e)
  | (tr2, .ok _) => (s2, tr2, .ok ())

/-- clear_state (lines 118-123): empties the map; only a console log, no
listener notification. -/
def clear_state (s : Store) (tr : Trace) : Store × Trace × Except JsValue Unit :=
  ({ s with state := [] }, tr, .ok ())

/-- subscribe (lines 95-99): push the callback, return len - 1. -/
def subscribe (s : Store) (cb : Listener) : Store × Nat :=
  ({ s with listeners := s.listeners ++ [cb] }, s.listeners.length)

/-- Vec remove: drops the element at the index, shifting later elements
down by one (callers guard the index bound). -/
def vecRemove {α : Type} : List α → Nat → List α
  | [], _ => []
  | _ :: rest, 0 => rest
  | x :: rest, i + 1 => x :: vecRemove rest i

/-- unsubscribe (lines 102-108): remove the entry when the index is in
range, silently ignore otherwise; always Ok. -/
def unsubscribe (s : Store) (index : Nat) : Store × Except JsValue Unit :=
  if index < s.listeners.length then
    ({ s with listeners := vecRemove s.listeners index }, .ok ())
  else
    (s, .ok ())

/-- add_middleware (lines 111-115): append to the chain. -/
def add_middleware (s : Store) (mw : Middleware) : Store × Except JsValue Unit :=
  ({ s with middleware := s.middleware ++ [mw] }, .ok ())

/-- apply_middleware (lines 148-165): left-to-right loop over the chain.
Each middleware receives the action object built from the current payload;
a raised error propagates at once; when the returned value is neither
undefined nor null the current payload is replaced by Reflect get of its
payload property, whose own error also propagates. The chain is passed
explicitly in place of the self field. -/
def apply_middleware : List Middleware → String → JsValue → Int → Except JsValue JsValue
  | [], _, current, _ => .ok current
  | mw :: rest, action_type, current, timestamp =>
      match mw (actionObj action_type current timestamp) with
      | .error e => .error e
      | .ok result =>
          if result.is_undefined || result.is_null then
            apply_middleware rest action_type current timestamp
          else
            match reflect_get result "payload" with
            | .error e => .error e
            | .ok p => apply_middleware rest action_type p timestamp

/-- The SET_STATE loop of handle_action (lines 170-179): set_state on each
field of the payload object in property order, stopping on an error. -/
def setEntries (clock : Clock) (s : Store) (tr : Trace) :
    List (String × JsValue) → Store × Trace × Except JsValue Unit
  | [] => (s, tr, .ok ())
  | (k, v) :: rest =>
      match set_state clock s tr k v with
      | (s1, tr1, .ok _) => setEntries clock s1 tr1 rest
      | (s1, tr1, .error e) => (s1, tr1, .error e)

/-- handle_action (lines 167-197): the reducer. SET_STATE iterates an
object payload (non-object payloads are skipped because Object try_from
fails on them); REMOVE_STATE acts only on string payloads; CLEAR_STATE
clears; every other kind inserts the payload directly into the state map
under a synthesized key, with no listener notification. -/
def handle_action (clock : Clock) (s : Store) (tr : Trace) (action_type : String)
    (payload : JsValue) : Store × Trace × Except JsValue Unit :=
  if action_type = "SET_STATE" then
    match payload with
    | .obj fields => setEntries clock s tr fields
    | _ => (s, tr, .ok ())
  else if action_type = "REMOVE_STATE" then
    match payload.as_string with
    | some k => remove_state clock s tr k
    | none => (s, tr, .ok ())
  else if action_type = "CLEAR_STATE" then
    clear_state s tr
  else
    ({ s with state := mapInsert s.state ("__actions_" ++ action_type) payload },
      tr, .ok ())

/-- dispatch (lines 74-92): sample Date now, run the middleware chain on
the payload, then hand the processed payload to the reducer; a middleware
error aborts before the reducer runs. -/
def dispatch (clock : Clock) (s : Store) (tr : Trace) (action_type : String)
    (payload : JsValue) : Store × Trace × Except JsValue Unit :=
  let timestamp := clock tr.sample
  let tr1 : Trace := { tr with sample := tr.sample + 1 }
  match apply_middleware s.middleware action_type payload timestamp with
  | .error e => (s, tr1, .error e)
  | .ok processed => handle_action clock s tr1 action_type processed

/-- Lock and callback events, for reasoning about when each Mutex guard is
live during a mutation. -/
inductive LockEvent : Type where
  | stateAcquire : LockEvent
  | stateMutate : LockEvent
  | stateRelease : LockEvent
  | listAcquire : LockEvent
  | listRelease : LockEvent
  | invoke : Nat → LockEvent
deriving DecidableEq

/-- Tests for the state-lock events. -/
def isStateAcquire : LockEvent → Bool
  | .stateAcquire => true
  | _ => false

def isStateRelease : LockEvent → Bool
  | .stateRelease => true
  | _ => false

def isStateMutate : LockEvent → Bool
  | .stateMutate => true
  | _ => false

/-- Event order of set_state (lines 45-53) and remove_state (lines
126-131) with n registered listeners, which share the same structure: the
guard from the state lock call on the first line is a local binding, so
Rust drops it only when the function returns, after notify_listeners has
acquired the listener lock, invoked each listener, and released it. -/
def mutateNotifyTrace (n : Nat) : List LockEvent :=
  .stateAcquire :: .stateMutate :: .listAcquire ::
    ((List.range n).map LockEvent.invoke ++ [.listRelease, .stateRelease])

/-- The identity clock: the i-th Date-now call returns i, so consecutive
samples are distinct. -/
def clockId : Clock := fun n => (n : Int)

/-- A listener that succeeds and ignores its event. -/
def okListener : Listener := fun _ => .ok ()

/-- A listener that raises on every event. -/
def badListener : Listener := fun _ => .error (.str "listener failed")

/-- A middleware that raises on every action. -/
def errMiddleware : Middleware := fun _ => .error (.str "middleware failed")

/-- A middleware that returns a present object carrying no payload field. -/
def mwNoPayloadField : Middleware := fun _ => .ok (.obj [("other", .num 7)])

/-- A store with empty state, exactly one listener and no middleware. -/
def storeOneListener : Store :=
  { state := [], listeners := [okListener], middleware := [] }

/-- A store whose chain is exactly the erroring middleware. -/
def storeErrMw : Store :=
  { state := [("a", .num 5)], listeners := [okListener], middleware := [errMiddleware] }

/-- Modelled from the amended claim C1: one stage of the middleware run.
A stage leaves the payload unchanged exactly when the middleware returns
the undefined or null sentinel; when it returns a present value, the new
payload is the payload property of that value — the undefined sentinel
when the property is absent — and reading the property off a present
non-object value raises, as does an error raised by the middleware
itself; either error aborts the run. -/
def middlewareStage (action_type : String) (timestamp : Int) (current : JsValue)
    (mw : Middleware) : Except JsValue JsValue :=
  match mw (actionObj action_type current timestamp) with
  | .error e => .error e
  | .ok result =>
      if result.is_undefined || result.is_null then .ok current
      else reflect_get result "payload"

/-- Modelled from the amended claim C4: the change events one SET_STATE
batch delivers when n listeners are registered and the notification for
the first pair takes clock sample number sample. Each pair notifies every
listener once, stamped with the fresh sample taken inside that
notification, so successive pairs carry successive samples. -/
def setDeliveries (clock : Clock) (n : Nat) (sample : Nat) :
    List (String × JsValue) → List (Nat × JsValue)
  | [] => []
  | (k, v) :: rest =>
      (List.range n).map (fun i => (i, changeEvent k v (clock sample))) ++
        setDeliveries clock n (sample + 1) rest

/-- Modelled from the amended claim C4: the change events one dispatch
delivers, given the processed payload q that reaches the reducer and the
index sample of the first clock sample after the dispatch-start one.
SET_STATE of an object notifies per pair with successive fresh samples,
REMOVE_STATE of a string notifies once with one fresh sample, and every
other case delivers nothing; the dispatch-start sample is never used for
a delivered timestamp. -/
def dispatchDeliveries (clock : Clock) (n : Nat) (sample : Nat) (kind : String)
    (q : JsValue) : List (Nat × JsValue) :=
  if kind = "SET_STATE" then
    match q with
    | .obj fields => setDeliveries clock n sample fields
    | _ => []
  else if kind = "REMOVE_STATE" then
    match q with
    | .str k => (List.range n).map (fun i => (i, changeEvent k .null (clock sample)))
    | _ => []
  else []

/-- A middleware that replaces any payload by a fixed two-pair object. -/
def mwTwoPairs : Middleware :=
  fun _ => .ok (.obj [("payload", .obj [("a", .num 1), ("b", .num 2)])])

/-- A store with one listener whose chain is exactly the two-pair
middleware. -/
def storeMwTwoPairs : Store :=
  { state := [], listeners := [okListener], middleware := [mwTwoPairs] }

/-- The state write lock is held just before position j of the trace: more
acquisitions than releases among the first j events. -/
def stateHeldAt (events : List LockEvent) (j : Nat) : Bool :=
  (events.take j).countP isStateRelease < (events.take j).countP isStateAcquire

/-- The state mutation has already committed before position j. -/
def mutatedBefore (events : List LockEvent) (j : Nat) : Bool :=
  (events.take j).any isStateMutate

end WasmStorage

namespace WasmStorage

/-! Basic lemmas about the association-list state. -/

theorem lookupField_mapInsert_self (m : List (String × JsValue)) (k : String)
    (v : JsValue) : lookupField (mapInsert m k v) k = some v := by
  induction m with
  | nil => simp [mapInsert, lookupField]
  | cons e rest ih =>
      obtain ⟨k2, v2⟩ := e
      by_cases h : k2 = k
      · simp [mapInsert, h, lookupField]
      · simp [mapInsert, h, lookupField, ih]

theorem lookupField_mapRemove_self (m : List (String × JsValue)) (k : String) :
    lookupField (mapRemove m k) k = none := by
  induction m with
  | nil => simp [mapRemove, lookupField]
  | cons e rest ih =>
      obtain ⟨k2, v2⟩ := e
      by_cases h : k2 = k
      · simpa [mapRemove, h] using ih
      · simpa [mapRemove, h, lookupField] using ih

theorem mapRemove_of_absent (m : List (String × JsValue)) (k : String)
    (h : lookupField m k = none) : mapRemove m k = m := by
  induction m with
  | nil => rfl
  | cons e rest ih =>
      obtain ⟨k2, v2⟩ := e
      by_cases hk : k2 = k
      · simp [lookupField, hk] at h
      · simp only [lookupField, if_neg hk] at h
        simp [mapRemove, hk] at ih ⊢
        exact ih h

/-- Running an appended chain runs the first part, then the second part
on the payload the first part produced, with errors short-circuiting. -/
theorem apply_middleware_append (xs ys : List Middleware) (t : String)
    (p : JsValue) (ts : Int) :
    apply_middleware (xs ++ ys) t p ts =
      match apply_middleware xs t p ts with
      | .error e => .error e
      | .ok q => apply_middleware ys t q ts := by
  induction xs generalizing p with
  | nil => simp [apply_middleware]
  | cons mw rest ih =>
      simp only [List.cons_append, apply_middleware]
      cases mw (actionObj t p ts) with
      | error e => rfl
      | ok result =>
          by_cases hres : (result.is_undefined || result.is_null) = true
          · simp [hres, ih]
          · simp only [hres]
            cases reflect_get result "payload" with
            | error e => simp
            | ok q => simp [ih]

/-! Lemmas about the lock-event trace of set_state and remove_state. -/

theorem countP_invoke_acquire (l : List Nat) :
    l.countP (isStateAcquire ∘ LockEvent.invoke) = 0 := by
  induction l with
  | nil => rfl
  | cons a l ih => simp [List.countP_cons, isStateAcquire, Function.comp, ih]

theorem countP_invoke_release (l : List Nat) :
    l.countP (isStateRelease ∘ LockEvent.invoke) = 0 := by
  induction l with
  | nil => rfl
  | cons a l ih => simp [List.countP_cons, isStateRelease, Function.comp, ih]

/-- Any listener-invoke position in the mutate-and-notify trace lies in
the invoke block, between offsets 3 and n + 2. -/
theorem invoke_pos_range (n j i : Nat)
    (hj : (mutateNotifyTrace n)[j]? = some (LockEvent.invoke i)) :
    3 ≤ j ∧ j < n + 3 := by
  match j with
  | 0 => simp [mutateNotifyTrace] at hj
  | 1 => simp [mutateNotifyTrace] at hj
  | 2 => simp [mutateNotifyTrace] at hj
  | j' + 3 =>
      refine ⟨by omega, ?_⟩
      by_contra hge
      have h1 : ((List.range n).map LockEvent.invoke).length ≤ j' := by
        simp only [List.length_map, List.length_range]
        omega
      have hj' : ((List.range n).map LockEvent.invoke ++
          [LockEvent.listRelease, LockEvent.stateRelease])[j']? =
            some (LockEvent.invoke i) := by
        simpa [mutateNotifyTrace] using hj
      rw [List.getElem?_append_right h1] at hj'
      rcases hk : j' - ((List.range n).map LockEvent.invoke).length with _ | _ | k <;>
        rw [hk] at hj' <;> simp at hj'

/-- The first j + 3 events of the mutate-and-notify trace, for an offset
j inside the invoke block. -/
theorem mutateNotifyTrace_take (n j : Nat) (h : j < n) :
    (mutateNotifyTrace n).take (j + 3) =
      LockEvent.stateAcquire :: LockEvent.stateMutate :: LockEvent.listAcquire ::
        (List.range j).map LockEvent.invoke := by
  simp only [mutateNotifyTrace, List.take_succ_cons]
  congr 1
  rw [List.take_append_of_le_length (by simp; omega), ← List.map_take,
    List.take_range, Nat.min_eq_left (by omega)]

/-- The delivery loop hands the event to every listener position in
order, independently of what the callbacks return. -/
theorem callListeners_eq_range (ev : JsValue) (ls : List Listener) (i : Nat) :
    callListeners ev ls i = (List.range ls.length).map fun j => (i + j, ev) := by
  induction ls generalizing i with
  | nil => simp [callListeners]
  | cons l rest ih =>
      simp only [callListeners, List.length_cons, List.range_succ_eq_map,
        List.map_cons, List.map_map, ih]
      congr 1
      simp only [List.map_map, List.map_inj_left, Function.comp]
      intro a _
      simp
      omega

theorem get_state_mapInsert_self (m : List (String × JsValue)) (k : String)
    (v : JsValue) : get_state (mapInsert m k v) k = v := by
  simp [get_state, lookupField_mapInsert_self]

theorem vecRemove_eq_take_append_drop {α : Type} (l : List α) (i : Nat)
    (h : i < l.length) : vecRemove l i = l.take i ++ l.drop (i + 1) := by
  induction l generalizing i with
  | nil => simp at h
  | cons x rest ih =>
      cases i with
      | zero => simp [vecRemove]
      | succ i2 =>
          simp only [vecRemove, List.take_succ_cons, List.drop_succ_cons,
            List.cons_append]
          rw [ih i2 (by simpa using h)]

/-- Dispatch of any unrecognized kind whose middleware run succeeds with
payload q: the reducer inserts q directly under the synthesized key and
nothing else changes — no notification, no second clock sample. -/
theorem dispatch_custom (clock : Clock) (s : Store) (tr : Trace) (kind : String)
    (p q : JsValue)
    (h1 : kind ≠ "SET_STATE") (h2 : kind ≠ "REMOVE_STATE") (h3 : kind ≠ "CLEAR_STATE")
    (hq : apply_middleware s.middleware kind p (clock tr.sample) = .ok q) :
    dispatch clock s tr kind p =
      ({ s with state := mapInsert s.state ("__actions_" ++ kind) q },
        { tr with sample := tr.sample + 1 }, .ok ()) := by
  simp only [dispatch, hq, handle_action, if_neg h1, if_neg h2, if_neg h3]

/-- C1, counterexample: the claim says a middleware that returns a value
without a usable payload field leaves the current payload unchanged. On a
chain holding one middleware that returns a present object with no
payload field, and initial payload 1, the code instead ends the run with
the undefined sentinel as payload, not with 1. -/
theorem C1_counterexample :
    apply_middleware [mwNoPayloadField] "KIND" (.num 1) 0 = .ok .undefined ∧
      JsValue.undefined ≠ JsValue.num 1 :=
  ⟨rfl, fun h => JsValue.noConfusion h⟩

/-- C1, amended: run folds the chain left-to-right over the payload; a
stage leaves the payload unchanged exactly when its middleware returns
the undefined or null sentinel; when it returns a present value the new
current payload is the payload property of that value — the undefined
sentinel when the property is absent — and a present non-object return
value makes the property read raise, aborting the dispatch, as does an
error raised by the middleware itself. -/
theorem C1_theorem (mws : List Middleware) (t : String) (p : JsValue) (ts : Int) :
    apply_middleware mws t p ts = mws.foldlM (middlewareStage t ts) p := by
  induction mws generalizing p with
  | nil => rfl
  | cons mw rest ih =>
      rw [List.foldlM_cons]
      cases hm : mw (actionObj t p ts) with
      | error e =>
          simp [apply_middleware, middlewareStage, hm]
          try rfl
      | ok result =>
          cases hres : result.is_undefined || result.is_null with
          | true =>
              simp [apply_middleware, middlewareStage, hm, hres, ih]
              try rfl
          | false =>
              cases hg : reflect_get result "payload" with
              | error e =>
                  simp [apply_middleware, middlewareStage, hm, hres, hg]
                  try rfl
              | ok q =>
                  simp [apply_middleware, middlewareStage, hm, hres, hg, ih]
                  try rfl

/-- C2, counterexample: on a store with one registered listener and an
empty chain, dispatching the unrecognized kind FOO with payload 42 does
store 42 under the synthesized key, but delivers no change event at all,
although the claim promises one change event per listener. -/
theorem C2_counterexample :
    get_state (dispatch clockId storeOneListener trace0 "FOO" (.num 42)).1.state
        "__actions_FOO" = .num 42 ∧
      storeOneListener.listeners.length = 1 ∧
      (dispatch clockId storeOneListener trace0 "FOO" (.num 42)).2.1.deliveries = [] :=
  ⟨rfl, rfl, rfl⟩

/-- C2, amended: for every dispatched kind other than SET_STATE,
REMOVE_STATE and CLEAR_STATE whose middleware run succeeds with payload
q, the reducer inserts q under the synthesized key directly into the
state map, bypassing the generic set path, so get_state of the
synthesized key afterwards returns q but no change event is delivered to
any listener, and the dispatch returns success. -/
theorem C2_theorem (clock : Clock) (s : Store) (tr : Trace) (kind : String)
    (p q : JsValue)
    (h1 : kind ≠ "SET_STATE") (h2 : kind ≠ "REMOVE_STATE") (h3 : kind ≠ "CLEAR_STATE")
    (hq : apply_middleware s.middleware kind p (clock tr.sample) = .ok q) :
    get_state (dispatch clock s tr kind p).1.state ("__actions_" ++ kind) = q ∧
      (dispatch clock s tr kind p).2.1.deliveries = tr.deliveries ∧
      (dispatch clock s tr kind p).2.2 = .ok () := by
  rw [dispatch_custom clock s tr kind p q h1 h2 h3 hq]
  exact ⟨get_state_mapInsert_self s.state ("__actions_" ++ kind) q, rfl, rfl⟩

/-- C2, witness: the amended statement at the concrete input of the spec
example — kind FOO, payload 42, a store with one listener. -/
theorem C2_witness :
    get_state (dispatch clockId storeOneListener trace0 "FOO" (.num 42)).1.state
        ("__actions_" ++ "FOO") = .num 42 ∧
      (dispatch clockId storeOneListener trace0 "FOO" (.num 42)).2.1.deliveries =
        trace0.deliveries ∧
      (dispatch clockId storeOneListener trace0 "FOO" (.num 42)).2.2 = .ok () :=
  C2_theorem clockId storeOneListener trace0 "FOO" (.num 42) (.num 42)
    (by decide) (by decide) (by decide) rfl

/-- C3: when the chain is any prefix that succeeds with payload q,
followed by a middleware that raises e on the action built from q,
followed by any suffix, dispatch returns exactly the original store, a
trace extended only by the initial clock sample, and the error e: the
suffix and the reducer are never consulted, the state map is untouched,
no change event is delivered, and the error payload reaches the caller
unchanged. -/
theorem C3_theorem (clock : Clock) (s : Store) (tr : Trace) (kind : String)
    (p q e : JsValue) (pre post : List Middleware) (mwbad : Middleware)
    (hmw : s.middleware = pre ++ mwbad :: post)
    (hpre : apply_middleware pre kind p (clock tr.sample) = .ok q)
    (hbad : mwbad (actionObj kind q (clock tr.sample)) = .error e) :
    dispatch clock s tr kind p = (s, { tr with sample := tr.sample + 1 }, .error e) := by
  have happ : apply_middleware s.middleware kind p (clock tr.sample) = .error e := by
    rw [hmw, apply_middleware_append, hpre]
    simp [apply_middleware, hbad]
  simp only [dispatch, happ]

/-- C3, witness: the statement at a concrete input — a chain of exactly
one erroring middleware, kind FOO, payload 1. -/
theorem C3_witness :
    dispatch clockId storeErrMw trace0 "FOO" (.num 1) =
      (storeErrMw, { trace0 with sample := trace0.sample + 1 },
        .error (.str "middleware failed")) :=
  C3_theorem clockId storeErrMw trace0 "FOO" (.num 1) (.num 1)
    (.str "middleware failed") [] [] errMiddleware rfl rfl rfl

/-- C4, counterexample: under the clock that returns its call index, a
SET_STATE dispatch on a one-listener store captures timestamp 0 at the
start of dispatch (the value passed through the middleware chain), yet
the change event delivered for the mutated key carries timestamp 1 — a
fresh Date-now sample taken inside notify_listeners — so the delivered
timestamp differs from the dispatch-start timestamp. -/
theorem C4_counterexample :
    (dispatch clockId storeOneListener trace0 "SET_STATE"
        (.obj [("a", .num 1)])).2.1.deliveries =
      [(0, changeEvent "a" (.num 1) 1)] ∧
      clockId trace0.sample = 0 ∧ (1 : Int) ≠ 0 :=
  ⟨rfl, rfl, by decide⟩

/-- Closed form of one set_state call: the inserted state, the bumped
sample counter, and the delivery block stamped with the clock sample
taken inside this notification. -/
theorem set_state_eq (clock : Clock) (s : Store) (tr : Trace) (key : String)
    (value : JsValue) :
    set_state clock s tr key value =
      ({ s with state := mapInsert s.state key value },
        { sample := tr.sample + 1,
          deliveries := tr.deliveries ++
            callListeners (changeEvent key value (clock tr.sample)) s.listeners 0 },
        .ok ()) := rfl

/-- The SET_STATE loop delivers, for each pair in property order, one
event per listener stamped with the clock sample taken inside that
notification, starting from the sample counter the loop was entered
with. -/
theorem setEntries_deliveries (clock : Clock) (s : Store) (tr : Trace)
    (fields : List (String × JsValue)) :
    (setEntries clock s tr fields).2.1.deliveries =
      tr.deliveries ++ setDeliveries clock s.listeners.length tr.sample fields := by
  induction fields generalizing s tr with
  | nil => simp [setEntries, setDeliveries]
  | cons e rest ih =>
      obtain ⟨k, v⟩ := e
      simp only [setEntries, set_state_eq]
      rw [ih]
      simp [setDeliveries, callListeners_eq_range, List.append_assoc]

/-- C4, amended: for every dispatch whose middleware run succeeds with
processed payload q, the change events it delivers are exactly those of
dispatchDeliveries: each mutated key notifies every listener with a
timestamp that is the fresh Date-now sample taken inside
notify_listeners for that mutation — sample tr.sample + 1 for the first
mutation and one more per further SET_STATE pair — never the
dispatch-start sample tr.sample that was passed through the middleware
chain. This covers stores with middleware, multi-key SET_STATE batches,
REMOVE_STATE, and the kinds that deliver nothing. -/
theorem C4_theorem (clock : Clock) (s : Store) (tr : Trace) (kind : String)
    (p q : JsValue)
    (hq : apply_middleware s.middleware kind p (clock tr.sample) = .ok q) :
    (dispatch clock s tr kind p).2.1.deliveries =
      tr.deliveries ++
        dispatchDeliveries clock s.listeners.length (tr.sample + 1) kind q := by
  simp only [dispatch, hq]
  by_cases h1 : kind = "SET_STATE"
  · subst h1
    cases q with
    | obj fields =>
        have h := setEntries_deliveries clock s { tr with sample := tr.sample + 1 } fields
        simpa [handle_action, dispatchDeliveries] using h
    | null => simp [handle_action, dispatchDeliveries]
    | undefined => simp [handle_action, dispatchDeliveries]
    | num n => simp [handle_action, dispatchDeliveries]
    | str s2 => simp [handle_action, dispatchDeliveries]
    | bool b => simp [handle_action, dispatchDeliveries]
  · by_cases h2 : kind = "REMOVE_STATE"
    · subst h2
      cases q with
      | str k =>
          simp [handle_action, dispatchDeliveries, JsValue.as_string,
            remove_state, notify_listeners, callListeners_eq_range]
      | null => simp [handle_action, dispatchDeliveries, JsValue.as_string]
      | undefined => simp [handle_action, dispatchDeliveries, JsValue.as_string]
      | num n => simp [handle_action, dispatchDeliveries, JsValue.as_string]
      | bool b => simp [handle_action, dispatchDeliveries, JsValue.as_string]
      | obj fields => simp [handle_action, dispatchDeliveries, JsValue.as_string]
    · by_cases h3 : kind = "CLEAR_STATE"
      · subst h3
        simp [handle_action, dispatchDeliveries, clear_state]
      · simp only [handle_action, if_neg h1, if_neg h2, if_neg h3,
          dispatchDeliveries]
        simp

/-- C4, witness: the amended statement at a concrete input exercising a
non-empty middleware chain and a two-key SET_STATE batch — the
middleware replaces the payload by a two-pair object, and the two
delivered events carry the second and third clock samples. -/
theorem C4_witness :
    (dispatch clockId storeMwTwoPairs trace0 "SET_STATE" .null).2.1.deliveries =
      trace0.deliveries ++
        dispatchDeliveries clockId storeMwTwoPairs.listeners.length
          (trace0.sample + 1) "SET_STATE" (.obj [("a", .num 1), ("b", .num 2)]) :=
  C4_theorem clockId storeMwTwoPairs trace0 "SET_STATE" .null
    (.obj [("a", .num 1), ("b", .num 2)]) rfl

/-- C5: notification delivers the change event to every registered
listener position in registration order — stated for arbitrary listener
callbacks, so in particular for callbacks that raise — and neither the
notification nor the triggering set_state or remove_state call fails
because of a listener error. -/
theorem C5_theorem (clock : Clock) (s : Store) (tr : Trace) (key : String)
    (value : JsValue) :
    (notify_listeners clock s tr key value).2 = .ok () ∧
      (notify_listeners clock s tr key value).1.deliveries =
        tr.deliveries ++ (List.range s.listeners.length).map
          (fun i => (i, changeEvent key value (clock tr.sample))) ∧
      (set_state clock s tr key value).2.2 = .ok () ∧
      (remove_state clock s tr key).2.2 = .ok () := by
  refine ⟨rfl, ?_, rfl, rfl⟩
  simp [notify_listeners, callListeners_eq_range]

/-- C6: remove_state replaces the state by the state without the key —
so the key reads back as the null sentinel, and an absent key leaves the
state contents unchanged — and in both cases it delivers exactly one
change event per listener for that key with the null sentinel as value,
returning success. -/
theorem C6_theorem (clock : Clock) (s : Store) (tr : Trace) (k : String) :
    (remove_state clock s tr k).1.state = mapRemove s.state k ∧
      get_state (remove_state clock s tr k).1.state k = .null ∧
      (lookupField s.state k = none → (remove_state clock s tr k).1.state = s.state) ∧
      (remove_state clock s tr k).2.1.deliveries =
        tr.deliveries ++ (List.range s.listeners.length).map
          (fun i => (i, changeEvent k .null (clock tr.sample))) ∧
      (remove_state clock s tr k).2.2 = .ok () := by
  have hst : (remove_state clock s tr k).1.state = mapRemove s.state k := rfl
  refine ⟨rfl, ?_, ?_, ?_, rfl⟩
  · rw [hst, get_state, lookupField_mapRemove_self]
    rfl
  · intro hni
    rw [hst, mapRemove_of_absent s.state k hni]
  · simp [remove_state, notify_listeners, callListeners_eq_range]

/-- C6, witness: the statement at a concrete input where the key is
absent — the state is untouched but the one listener still receives one
null-valued change event. -/
theorem C6_witness :
    (remove_state clockId storeOneListener trace0 "missing").1.state =
        mapRemove storeOneListener.state "missing" ∧
      get_state (remove_state clockId storeOneListener trace0 "missing").1.state
        "missing" = .null ∧
      (lookupField storeOneListener.state "missing" = none →
        (remove_state clockId storeOneListener trace0 "missing").1.state =
          storeOneListener.state) ∧
      (remove_state clockId storeOneListener trace0 "missing").2.1.deliveries =
        trace0.deliveries ++ (List.range storeOneListener.listeners.length).map
          (fun i => (i, changeEvent "missing" .null (clockId trace0.sample))) ∧
      (remove_state clockId storeOneListener trace0 "missing").2.2 = .ok () :=
  C6_theorem clockId storeOneListener trace0 "missing"

/-- C7: clear_state empties the state map — get_all_state of the result
is the empty mapping and get_state of any key returns the null sentinel
— and it delivers no change event to any listener and takes no clock
sample, returning success. -/
theorem C7_theorem (s : Store) (tr : Trace) (k : String) :
    (clear_state s tr).1.state = [] ∧
      get_all_state (clear_state s tr).1 = [] ∧
      get_state (clear_state s tr).1.state k = .null ∧
      (clear_state s tr).2.1 = tr ∧
      (clear_state s tr).2.2 = .ok () :=
  ⟨rfl, rfl, rfl, rfl, rfl⟩

/-- C8: subscription handles are positions — subscribe appends and
returns the previous listener count as the handle; unsubscribe of an
in-range handle removes that entry shifting the later ones down by one
and returns success; unsubscribe of an out-of-range handle returns
success and leaves the store unchanged; and after unsubscribing handle 0
from a one-listener registry, a new subscribe returns handle 0 again. -/
theorem C8_theorem (s : Store) (cb : Listener) (i : Nat) :
    (subscribe s cb).2 = s.listeners.length ∧
      (subscribe s cb).1.listeners = s.listeners ++ [cb] ∧
      (i < s.listeners.length →
        (unsubscribe s i).1.listeners =
          s.listeners.take i ++ s.listeners.drop (i + 1) ∧
        (unsubscribe s i).2 = .ok ()) ∧
      (s.listeners.length ≤ i →
        (unsubscribe s i).1 = s ∧ (unsubscribe s i).2 = .ok ()) ∧
      (s.listeners.length = 1 → (subscribe (unsubscribe s 0).1 cb).2 = 0) := by
  refine ⟨rfl, rfl, ?_, ?_, ?_⟩
  · intro h
    refine ⟨?_, ?_⟩
    · simp only [unsubscribe, if_pos h]
      exact vecRemove_eq_take_append_drop s.listeners i h
    · simp [unsubscribe, h]
  · intro h
    have hn : ¬ i < s.listeners.length := Nat.not_lt.mpr h
    exact ⟨by simp [unsubscribe, hn], by simp [unsubscribe, hn]⟩
  · intro h
    have h0 : 0 < s.listeners.length := by omega
    simp only [unsubscribe, if_pos h0, subscribe]
    rw [vecRemove_eq_take_append_drop s.listeners 0 h0]
    simp [h]

/-- C8, witness: the statement at a one-listener store with handle 0. -/
theorem C8_witness :
    (subscribe storeOneListener okListener).2 = storeOneListener.listeners.length ∧
      (subscribe storeOneListener okListener).1.listeners =
        storeOneListener.listeners ++ [okListener] ∧
      (0 < storeOneListener.listeners.length →
        (unsubscribe storeOneListener 0).1.listeners =
          storeOneListener.listeners.take 0 ++ storeOneListener.listeners.drop 1 ∧
        (unsubscribe storeOneListener 0).2 = .ok ()) ∧
      (storeOneListener.listeners.length ≤ 0 →
        (unsubscribe storeOneListener 0).1 = storeOneListener ∧
        (unsubscribe storeOneListener 0).2 = .ok ()) ∧
      (storeOneListener.listeners.length = 1 →
        (subscribe (unsubscribe storeOneListener 0).1 okListener).2 = 0) :=
  C8_theorem storeOneListener okListener 0

/-- C9, counterexample: in the event trace of set_state and remove_state
with one registered listener, the listener is invoked at position 3 while
the state write lock is still held — the claim says the lock is no longer
held when listeners run. -/
theorem C9_counterexample :
    (mutateNotifyTrace 1)[3]? = some (LockEvent.invoke 0) ∧
      stateHeldAt (mutateNotifyTrace 1) 3 = true := by
  decide

/-- C9, amended: in the event trace of set_state and remove_state, every
listener invocation happens after the state mutation has committed but
while the state write lock is still held — the guard taken at the top of
the function is dropped only on return — so a listener that synchronously
called back into get_state would contend with a lock that is still held,
not with a released one. -/
theorem C9_theorem (n j i : Nat)
    (hj : (mutateNotifyTrace n)[j]? = some (LockEvent.invoke i)) :
    mutatedBefore (mutateNotifyTrace n) j = true ∧
      stateHeldAt (mutateNotifyTrace n) j = true := by
  obtain ⟨h3, hlt⟩ := invoke_pos_range n j i hj
  obtain ⟨j2, rfl⟩ : ∃ j2, j = j2 + 3 := ⟨j - 3, by omega⟩
  have hj2n : j2 < n := by omega
  rw [mutatedBefore, stateHeldAt, mutateNotifyTrace_take n j2 hj2n]
  constructor
  · simp [isStateMutate]
  · simp [List.countP_cons, isStateAcquire, isStateRelease,
      countP_invoke_acquire, countP_invoke_release]
    try omega

/-- C9, witness: the amended statement at the concrete invoke position of
the one-listener trace. -/
theorem C9_witness :
    mutatedBefore (mutateNotifyTrace 1) 3 = true ∧
      stateHeldAt (mutateNotifyTrace 1) 3 = true :=
  C9_theorem 1 3 0 (by decide)

/-- C10: for every kind outside the three reserved ones, dispatched on a
store with an empty middleware chain, the synthesized key is an ordinary
entry of the same state map — get_state returns the dispatched payload, a
later set_state on the synthesized key overwrites it, a later dispatch of
the same kind overwrites it, remove_state deletes it, and clear_state
empties the whole map including it. -/
theorem C10_theorem (clock : Clock) (s : Store) (tr : Trace) (k : String)
    (p v : JsValue)
    (h1 : k ≠ "SET_STATE") (h2 : k ≠ "REMOVE_STATE") (h3 : k ≠ "CLEAR_STATE")
    (hm : s.middleware = []) :
    get_state (dispatch clock s tr k p).1.state ("__actions_" ++ k) = p ∧
      get_state (set_state clock (dispatch clock s tr k p).1 tr
          ("__actions_" ++ k) v).1.state ("__actions_" ++ k) = v ∧
      get_state (dispatch clock (dispatch clock s tr k p).1 tr k v).1.state
        ("__actions_" ++ k) = v ∧
      lookupField (remove_state clock (dispatch clock s tr k p).1 tr
          ("__actions_" ++ k)).1.state ("__actions_" ++ k) = none ∧
      (clear_state (dispatch clock s tr k p).1 tr).1.state = [] := by
  have hq : apply_middleware s.middleware k p (clock tr.sample) = .ok p := by
    rw [hm]
    rfl
  have hd := dispatch_custom clock s tr k p p h1 h2 h3 hq
  rw [hd]
  have hq2 : apply_middleware
      (Store.mk (mapInsert s.state ("__actions_" ++ k) p) s.listeners
        s.middleware).middleware k v (clock tr.sample) = .ok v := by
    show apply_middleware s.middleware k v (clock tr.sample) = .ok v
    rw [hm]
    rfl
  have hd2 := dispatch_custom clock
    (Store.mk (mapInsert s.state ("__actions_" ++ k) p) s.listeners s.middleware)
    tr k v v h1 h2 h3 hq2
  refine ⟨get_state_mapInsert_self s.state ("__actions_" ++ k) p, ?_, ?_, ?_, rfl⟩
  · simp [set_state, notify_listeners, get_state_mapInsert_self]
  · rw [hd2]
    exact get_state_mapInsert_self _ ("__actions_" ++ k) v
  · simp [remove_state, notify_listeners, lookupField_mapRemove_self]

/-- C10, witness: the statement at the concrete spec example — kind FOO,
payload 42, overwrite value 7, on a one-listener store. -/
theorem C10_witness :
    get_state (dispatch clockId storeOneListener trace0 "FOO" (.num 42)).1.state
        ("__actions_" ++ "FOO") = .num 42 ∧
      get_state (set_state clockId
          (dispatch clockId storeOneListener trace0 "FOO" (.num 42)).1 trace0
          ("__actions_" ++ "FOO") (.num 7)).1.state ("__actions_" ++ "FOO") = .num 7 ∧
      get_state (dispatch clockId
          (dispatch clockId storeOneListener trace0 "FOO" (.num 42)).1 trace0
          "FOO" (.num 7)).1.state ("__actions_" ++ "FOO") = .num 7 ∧
      lookupField (remove_state clockId
          (dispatch clockId storeOneListener trace0 "FOO" (.num 42)).1 trace0
          ("__actions_" ++ "FOO")).1.state ("__actions_" ++ "FOO") = none ∧
      (clear_state (dispatch clockId storeOneListener trace0 "FOO" (.num 42)).1
          trace0).1.state = [] :=
  C10_theorem clockId storeOneListener trace0 "FOO" (.num 42) (.num 7)
    (by decide) (by decide) (by decide) rfl

end WasmStorage
